import Mathlib

/-!
Verification development for the EV Charger Feasibility analyzer
(`src/app.py` of the Excess-Power repository).

The analyzer core is embedded shallowly:

* a decoded table (what `pd.read_csv` / `pd.read_excel` hand to the
  processing code) is a `DataFrame`: column labels plus rows of `Cell`s;
* `process_tall_format`, `process_wide_format`, the wide/tall shape test
  `is_wide`, the per-file analysis (capacity, excess, custom charger load,
  overload test, CSV export) and the multi-file loop are translated
  function by function from the source;
* rational numbers stand in for Python floats.  All arithmetic used by the
  embedding goes through the kernel-reducible wrappers `qadd`, `qsub`,
  `qmul`, `qdiv`, `qmax` (each proved equal to the mathlib operation), so
  that concrete runs of the embedded program can be evaluated by `decide`.

Modelling assumptions (each noted again at the definition it concerns):

* cells arrive from the external reader already typed: numeric-looking
  text has been turned into numbers (`Cell.num`), everything else is text
  (`Cell.str`) or missing (`Cell.blank`), so `pd.to_numeric(errors="coerce")`
  is `some` exactly on `Cell.num`;
* `pd.to_datetime(errors="coerce")` is modelled for the ISO-like
  `YYYY-MM-DD[ H:MM[:SS]]` shapes the app's documentation shows; anything
  else (including numeric cells, which pandas would read as epoch
  offsets) parses to `none`;
* non-string column labels are represented by their `str()` rendering,
  which can never contain `"date"`, `"kw"`, `":"` or `"timestamp"`, so
  every label predicate of the source behaves identically;
* pandas raising on string concatenation with non-string operands is
  modelled by an explicit error branch guarded by an all-strings test.
-/

/-! ### Kernel-reducible rational arithmetic -/

/-- Addition on `ℚ` via `Rat.divInt`, so `decide` can evaluate it. -/
def qadd (a b : ℚ) : ℚ := Rat.divInt (a.num * b.den + b.num * a.den) (a.den * b.den)

/-- Subtraction on `ℚ` via `Rat.divInt`. -/
def qsub (a b : ℚ) : ℚ := Rat.divInt (a.num * b.den - b.num * a.den) (a.den * b.den)

/-- Multiplication on `ℚ` via `Rat.divInt`. -/
def qmul (a b : ℚ) : ℚ := Rat.divInt (a.num * b.num) (a.den * b.den)

/-- Division on `ℚ` via `Rat.divInt` (division by zero gives zero, as in mathlib). -/
def qdiv (a b : ℚ) : ℚ := Rat.divInt (a.num * b.den) (a.den * b.num)

/-- Binary maximum on `ℚ` by a decidable comparison. -/
def qmax (a b : ℚ) : ℚ := if a < b then b else a

theorem qadd_eq (a b : ℚ) : qadd a b = a + b := by
  have ha : ((a.den : ℤ)) ≠ 0 := Int.natCast_ne_zero.mpr a.den_nz
  have hb : ((b.den : ℤ)) ≠ 0 := Int.natCast_ne_zero.mpr b.den_nz
  rw [qadd, ← Rat.divInt_add_divInt _ _ ha hb, Rat.num_divInt_den, Rat.num_divInt_den]

theorem qsub_eq (a b : ℚ) : qsub a b = a - b := by
  have ha : ((a.den : ℤ)) ≠ 0 := Int.natCast_ne_zero.mpr a.den_nz
  have hb : ((b.den : ℤ)) ≠ 0 := Int.natCast_ne_zero.mpr b.den_nz
  rw [qsub, ← Rat.divInt_sub_divInt _ _ ha hb, Rat.num_divInt_den, Rat.num_divInt_den]

theorem qmul_eq (a b : ℚ) : qmul a b = a * b := by
  rw [qmul, ← Rat.divInt_mul_divInt', Rat.num_divInt_den, Rat.num_divInt_den]

theorem qdiv_eq (a b : ℚ) : qdiv a b = a / b := (Rat.div_def' a b).symm

theorem qmax_eq (a b : ℚ) : qmax a b = max a b := by
  rw [qmax]
  rcases le_or_lt b a with h | h
  · rw [if_neg (not_lt.mpr h), max_eq_left h]
  · rw [if_pos h, max_eq_right h.le]

/-! ### Character-level string utilities (kernel-reducible) -/

/-- `charsContain l p` holds when `p` occurs as a contiguous run inside `l`. -/
def charsContain : List Char → List Char → Bool
  | [], p => p.isEmpty
  | c :: t, p => p.isPrefixOf (c :: t) || charsContain t p

/-- Python's `pat in s` substring test. -/
def containsStr (s pat : String) : Bool := charsContain s.toList pat.toList

/-- Python's `s.lower()`. -/
def lowerStr (s : String) : String := String.mk (s.toList.map Char.toLower)

/-- Drop whitespace from both ends of a character list (Python's `strip()`). -/
def trimChars (l : List Char) : List Char :=
  ((l.dropWhile Char.isWhitespace).reverse.dropWhile Char.isWhitespace).reverse

/-- Python's `col.lower().strip()` applied to a label. -/
def lowerTrim (s : String) : String := String.mk (trimChars (s.toList.map Char.toLower))

/-- Does the string contain the character `c`? -/
def strHasChar (s : String) (c : Char) : Bool := s.toList.any (fun x => x == c)

/-- Split a character list at every occurrence of `sep` (Python's `split`). -/
def splitCharsAux (sep : Char) : List Char → List Char → List (List Char)
  | [], acc => [acc.reverse]
  | c :: cs, acc =>
    if c == sep then acc.reverse :: splitCharsAux sep cs []
    else splitCharsAux sep cs (c :: acc)

/-- Split a character list at every occurrence of `sep`. -/
def splitChars (sep : Char) (l : List Char) : List (List Char) := splitCharsAux sep l []

/-- Read a nonempty all-digit character list as a natural number. -/
def charsToNat? (l : List Char) : Option ℕ :=
  if l.isEmpty then none
  else if l.all Char.isDigit then
    some (l.foldl (fun acc c => 10 * acc + (c.toNat - 48)) 0)
  else none

/-! ### Timestamp parsing (model of `pd.to_datetime(..., errors="coerce")`)

Only the hour-of-day of a successful parse matters downstream
(`.dt.hour`), so a parse result is `Option ℕ`. -/

/-- Parse `"H:MM"` or `"H:MM:SS"`, returning the hour. -/
def parseTimeToken (l : List Char) : Option ℕ :=
  match (splitChars ':' (trimChars l)).map charsToNat? with
  | [some hh, some mm] => if hh < 24 ∧ mm < 60 then some hh else none
  | [some hh, some mm, some ss] => if hh < 24 ∧ mm < 60 ∧ ss < 60 then some hh else none
  | _ => none

/-- Recognise a `"YYYY-MM-DD"` calendar date. -/
def parseDateToken (l : List Char) : Bool :=
  match (splitChars '-' (trimChars l)).map charsToNat? with
  | [some _, some mo, some da] => decide (1 ≤ mo ∧ mo ≤ 12 ∧ 1 ≤ da ∧ da ≤ 31)
  | _ => false

/-- Parse a combined `"date"` or `"date time"` string; a bare date has hour 0. -/
def parseDateTimeChars (l : List Char) : Option ℕ :=
  match splitChars ' ' (trimChars l) with
  | [d] => if parseDateToken d then some 0 else none
  | [d, t] => if parseDateToken d then parseTimeToken t else none
  | _ => none

/-! ### Cells and decoded tables -/

/-- A decoded table cell as delivered by the external reader:
numeric-looking input has already been typed as `num`, text stays `str`,
and a missing value (pandas `NaN`) is `blank`. -/
inductive Cell where
  | num (q : ℚ)
  | str (s : String)
  | blank
  deriving DecidableEq, Repr

/-- Digit characters of a natural number. -/
def natChars (n : ℕ) : List Char := Nat.toDigits 10 n

/-- Integer rendering. -/
def intStr (i : ℤ) : String :=
  match i with
  | .ofNat n => String.mk (natChars n)
  | .negSucc n => String.mk ('-' :: natChars (n + 1))

/-- Rendering of a rational.  Stands in for Python's `str()` of a float;
the exact digits differ from Python but the rendering contains only
digits, `-`, and `/`, so every label/cell text predicate of the source
(`"date"`, `"kw"`, `":" in`, `"timestamp"`) behaves identically. -/
def ratStr (q : ℚ) : String :=
  if q.den == 1 then intStr q.num
  else intStr q.num ++ "/" ++ String.mk (natChars q.den)

/-- pandas `astype(str)` of a cell (`NaN` renders as `"nan"`). -/
def cellToStr : Cell → String
  | .num q => ratStr q
  | .str s => s
  | .blank => "nan"

/-- The cell's text, when it is text.  Used to model operations that
raise a `TypeError` on non-string operands. -/
def cellAsStr : Cell → Option String
  | .str s => some s
  | _ => none

/-- `pd.to_numeric(errors="coerce")` on reader-typed cells. -/
def toNumeric : Cell → Option ℚ
  | .num q => some q
  | _ => none

/-- Does `astype(str)` of the cell contain `"date"` case-insensitively? -/
def cellContainsDate (c : Cell) : Bool := containsStr (lowerStr (cellToStr c)) "date"

/-- `pd.to_datetime(errors="coerce")` on a single cell, reduced to the
hour-of-day.  Numeric cells (pandas: epoch offsets) are modelled as
unparseable; no claim depends on them. -/
def cellParseTimestamp : Cell → Option ℕ
  | .str s => parseDateTimeChars s.toList
  | _ => none

/-- A decoded rectangular table: column labels and rows of cells.
Non-string labels are represented by their `str()` rendering (see the
file header). -/
structure DataFrame where
  cols : List String
  rows : List (List Cell)
  deriving DecidableEq, Repr

/-- The value column under label `c` (first matching label, like pandas
column access for unique labels); short rows read as missing cells. -/
def colValues (df : DataFrame) (c : String) : List Cell :=
  match df.cols.findIdx? (fun x => x == c) with
  | some i => df.rows.map (fun r => r.getD i Cell.blank)
  | none => []

/-! ### Hourly aggregation (`groupby("hour")["kW"].max()`) -/

/-- The power values of the readings falling in hour `h`. -/
def valsAt (readings : List (ℕ × ℚ)) (h : ℕ) : List ℚ :=
  readings.filterMap (fun r => if r.1 = h then some r.2 else none)

/-- Running maximum of a nonempty collection, seeded with its head. -/
def listMax1 : ℚ → List ℚ → ℚ
  | v, [] => v
  | v, x :: xs => listMax1 (qmax v x) xs

/-- `df.groupby("hour")["kW"].max()`: for each hour of day 0–23 with at
least one reading, the maximum power among that hour's readings; hours
without readings are absent. -/
def hourlyMax (readings : List (ℕ × ℚ)) : List (ℕ × ℚ) :=
  (List.range 24).filterMap (fun h =>
    match valsAt readings h with
    | [] => none
    | v :: vs => some (h, listMax1 v vs))

theorem le_listMax1 (vs : List ℚ) : ∀ v : ℚ, v ≤ listMax1 v vs := by
  induction vs with
  | nil => intro v; exact le_refl v
  | cons x xs ih =>
    intro v
    have h1 : v ≤ qmax v x := by rw [qmax_eq]; exact le_max_left v x
    exact le_trans h1 (ih (qmax v x))

theorem listMax1_mem (vs : List ℚ) : ∀ v : ℚ, listMax1 v vs = v ∨ listMax1 v vs ∈ vs := by
  induction vs with
  | nil => intro v; exact Or.inl rfl
  | cons x xs ih =>
    intro v
    have hgoal : listMax1 v (x :: xs) = listMax1 (qmax v x) xs := rfl
    rcases ih (qmax v x) with h | h
    · rw [hgoal, h, qmax_eq]
      rcases max_choice v x with h2 | h2
      · exact Or.inl h2
      · exact Or.inr (List.mem_cons.mpr (Or.inl h2))
    · exact Or.inr (List.mem_cons_of_mem x (hgoal ▸ h))

theorem listMax1_ge_of_mem (vs : List ℚ) :
    ∀ v x : ℚ, x ∈ vs → x ≤ listMax1 v vs := by
  induction vs with
  | nil => intro v x hx; exact absurd hx (List.not_mem_nil x)
  | cons y ys ih =>
    intro v x hx
    rw [listMax1]
    rcases List.mem_cons.mp hx with rfl | hmem
    · have h1 : x ≤ qmax v x := by rw [qmax_eq]; exact le_max_right v x
      exact le_trans h1 (le_listMax1 ys (qmax v x))
    · exact ih (qmax v y) x hmem

theorem mem_valsAt (readings : List (ℕ × ℚ)) (h : ℕ) (q : ℚ) :
    q ∈ valsAt readings h ↔ (h, q) ∈ readings := by
  constructor
  · intro hq
    rcases List.mem_filterMap.mp hq with ⟨r, hr, hf⟩
    by_cases hrh : r.1 = h
    · rw [if_pos hrh] at hf
      have : r = (h, q) := by
        cases r
        simp only [Option.some_inj] at hf
        simp_all
      exact this ▸ hr
    · rw [if_neg hrh] at hf
      exact absurd hf (Option.noConfusion)
  · intro hmem
    exact List.mem_filterMap.mpr ⟨(h, q), hmem, by simp⟩

theorem listMax1_mem_cons (v : ℚ) (vs : List ℚ) : listMax1 v vs ∈ v :: vs := by
  rcases listMax1_mem vs v with h1 | h1
  · rw [h1]; exact List.mem_cons_self v vs
  · exact List.mem_cons_of_mem v h1

theorem hourlyMax_mem_iff (readings : List (ℕ × ℚ)) (h : ℕ) (q : ℚ) :
    (h, q) ∈ hourlyMax readings ↔
      h < 24 ∧ (h, q) ∈ readings ∧ ∀ p : ℚ, (h, p) ∈ readings → p ≤ q := by
  constructor
  · intro hmem
    rcases List.mem_filterMap.mp hmem with ⟨h', hh', hf⟩
    rcases hv : valsAt readings h' with _ | ⟨v, vs⟩
    · rw [hv] at hf; exact absurd hf Option.noConfusion
    · rw [hv] at hf
      have hpair : h' = h ∧ listMax1 v vs = q := by
        simpa using hf
      rcases hpair with ⟨rfl, hq⟩
      refine ⟨List.mem_range.mp hh', ?_, ?_⟩
      · have : listMax1 v vs ∈ v :: vs := listMax1_mem_cons v vs
        rw [← hv] at this
        exact hq ▸ (mem_valsAt readings h' (listMax1 v vs)).mp this
      · intro p hp
        have hpv : p ∈ v :: vs := hv ▸ (mem_valsAt readings h' p).mpr hp
        rcases List.mem_cons.mp hpv with rfl | hmem2
        · exact hq ▸ le_listMax1 vs p
        · exact hq ▸ listMax1_ge_of_mem vs v p hmem2
  · rintro ⟨hlt, hmem, hub⟩
    have hqv : q ∈ valsAt readings h := (mem_valsAt readings h q).mpr hmem
    rcases hv : valsAt readings h with _ | ⟨v, vs⟩
    · rw [hv] at hqv; exact absurd hqv (List.not_mem_nil q)
    · have hqm : q = listMax1 v vs := by
        have h1 : q ≤ listMax1 v vs := by
          rw [hv] at hqv
          rcases List.mem_cons.mp hqv with rfl | hmem2
          · exact le_listMax1 vs q
          · exact listMax1_ge_of_mem vs v q hmem2
        have h2 : listMax1 v vs ≤ q := by
          have : listMax1 v vs ∈ v :: vs := listMax1_mem_cons v vs
          rw [← hv] at this
          exact hub _ ((mem_valsAt readings h (listMax1 v vs)).mp this)
        exact le_antisymm h1 h2
      refine List.mem_filterMap.mpr ⟨h, List.mem_range.mpr hlt, ?_⟩
      rw [hv, hqm]

/-! ### The tall-format normalizer (`process_tall_format`, src/app.py lines 41–66) -/

/-- Result of one normalizer call: `(hourly, error)` as returned by the
Python functions, plus the `st.warning` notices it emitted on the way. -/
structure NormResult where
  profile : Option (List (ℕ × ℚ))
  error : Option String
  warnings : List String
  deriving DecidableEq, Repr

/-- Lines 43–45: if a column is literally `"Unnamed: 1"` and the first
data row mentions `"DATE"` (case-insensitive), promote that row to be the
header.  `df.iloc[0]` on an empty frame raises, which the enclosing
`try/except` turns into a labelled error (message text approximated). -/
def tallPromote (df : DataFrame) : Except String DataFrame :=
  if df.cols.contains "Unnamed: 1" then
    match df.rows with
    | [] => .error "Error in tall format: single positional indexer is out-of-bounds"
    | r0 :: rest =>
      .ok (if r0.any cellContainsDate then ⟨r0.map cellToStr, rest⟩ else df)
  else .ok df

/-- Line 46: lower-case and strip every (string) column label. -/
def tallLowerCols (df : DataFrame) : DataFrame := ⟨df.cols.map lowerTrim, df.rows⟩

/-- Outcome of the timestamp-building step, lines 48–53. -/
inductive TsParse where
  | missingCols
  | typeError (msg : String)
  | parsed (l : List (Option ℕ))
  deriving DecidableEq, Repr

/-- Lines 48–53: build the `timestamp` series.  A `date`/`time` pair is
concatenated with one space; pandas raises a `TypeError` when a non-string
cell is concatenated, which the `try/except` turns into a labelled error. -/
def tallTs (df : DataFrame) : TsParse :=
  if df.cols.contains "timestamp" then
    .parsed ((colValues df "timestamp").map cellParseTimestamp)
  else if df.cols.contains "date" && df.cols.contains "time" then
    let ds := colValues df "date"
    let ts := colValues df "time"
    if ds.all (fun c => (cellAsStr c).isSome) && ts.all (fun c => (cellAsStr c).isSome) then
      .parsed ((ds.zip ts).map (fun p =>
        parseDateTimeChars (((cellAsStr p.1).getD "").toList ++ ' ' :: ((cellAsStr p.2).getD "").toList)))
    else .typeError "Error in tall format: can only concatenate str to str"
  else .missingCols

/-- Line 55: the first column whose label contains `"kw"` case-insensitively. -/
def tallPowerCol (df : DataFrame) : Option String :=
  df.cols.find? (fun c => containsStr (lowerStr c) "kw")

/-- Lines 59–61: coerce the power column, drop rows with an invalid
timestamp or power, and keep `(hour, kW)` readings. -/
def tallReadings (df : DataFrame) (tss : List (Option ℕ)) (pc : String) : List (ℕ × ℚ) :=
  (tss.zip ((colValues df pc).map toNumeric)).filterMap (fun p =>
    match p with
    | (some h, some q) => some (h, q)
    | _ => none)

/-- `process_tall_format` (lines 41–66): promote an embedded header,
normalise labels, build timestamps, pick the power column, and reduce to
the hourly maxima.  Structural problems come back as `(None, message)`. -/
def process_tall_format (df0 : DataFrame) : NormResult :=
  match tallPromote df0 with
  | .error msg => ⟨none, some msg, []⟩
  | .ok df1 =>
    let df := tallLowerCols df1
    match tallTs df with
    | .missingCols => ⟨none, some "Missing \x27timestamp\x27 or \x27date\x27 + \x27time\x27 columns.", []⟩
    | .typeError msg => ⟨none, some msg, []⟩
    | .parsed tss =>
      match tallPowerCol df with
      | none => ⟨none, some "No \x27kW\x27 column found.", []⟩
      | some pc => ⟨some (hourlyMax (tallReadings df tss pc)), none, []⟩

/-! ### The wide-format normalizer (`process_wide_format`, src/app.py lines 68–108) -/

/-- Lines 70–74: promote the first row to be the header when it mentions
`"Date"`, then rename the first column to `"date"`.  `df.iloc[0]` and
`df.columns[0]` on an empty axis raise, which the `try/except` turns into
a labelled error (message text approximated). -/
def widePrep (df : DataFrame) : Except String DataFrame :=
  match df.rows with
  | [] => .error "Error in wide format: single positional indexer is out-of-bounds"
  | r0 :: rest =>
    let df1 := if r0.any cellContainsDate then (⟨r0.map cellToStr, rest⟩ : DataFrame) else df
    match df1.cols with
    | [] => .error "Error in wide format: index 0 is out of bounds"
    | _ :: ct => .ok ⟨"date" :: ct, df1.rows⟩

/-- Line 76: the intraday time-of-day columns (labels containing `":"`). -/
def wideTimeCols (df : DataFrame) : List String := df.cols.filter (fun c => strHasChar c ':')

/-- Line 77: the first column whose label contains `"total"` or `"kwh"`. -/
def daily_total_col (df : DataFrame) : Option String :=
  df.cols.find? (fun c => containsStr (lowerStr c) "total" || containsStr (lowerStr c) "kwh")

/-- Line 85: `0.25` when there are at least 96 time columns, else `1.0`. -/
def interval_guess (df : DataFrame) : ℚ := if 96 ≤ (wideTimeCols df).length then qdiv 1 4 else 1

/-- Line 80, `df.melt(id_vars=["date"], value_vars=time_cols, ...)`:
one `(date, time, kWh)` triple per data row and time column. -/
def wideMelted (df : DataFrame) : List (Cell × String × Cell) :=
  ((wideTimeCols df).map (fun t =>
    ((colValues df "date").zip (colValues df t)).map (fun p => (p.1, t, p.2)))).flatten

/-- pandas raises a `TypeError` when `df_melted["date"] + " "` meets a
non-string cell; this guard models that. -/
def wideAllDatesStr (df : DataFrame) : Bool :=
  (colValues df "date").all (fun c => (cellAsStr c).isSome)

/-- Lines 81–86: parse `date + " " + time`, coerce the energy, drop
invalid rows, and convert energy to power with `kW = kWh / interval_guess`. -/
def wideReadings (df : DataFrame) : List (ℕ × ℚ) :=
  (wideMelted df).filterMap (fun e =>
    match cellAsStr e.1 with
    | some ds =>
      match parseDateTimeChars (ds.toList ++ ' ' :: e.2.1.toList), toNumeric e.2.2 with
      | some h, some kwh => some (h, qdiv kwh (interval_guess df))
      | _, _ => none
    | none => none)

/-- Lines 93–95: in the daily-total branch, the coerced `kWh` totals of
the rows whose `date` parses (`dropna(subset=["date", "kWh"])`). -/
def wideDailyValid (df : DataFrame) (tc : String) : List ℚ :=
  ((colValues df "date").zip (colValues df tc)).filterMap (fun p =>
    if (cellParseTimestamp p.1).isSome then toNumeric p.2 else none)

/-- Maximum of a list of rationals; pandas gives `NaN` on an empty
series, modelled as `0` (no theorem relies on the empty case). -/
def listMaxD : List ℚ → ℚ
  | [] => 0
  | v :: vs => listMax1 v vs

/-- Lines 96–101: the `st.warning` text of the daily-total fallback. -/
def wideDailyWarning : String := "⚠️ Daily kWh file detected — assuming uniform 24-hour usage."

/-- Lines 97–101: uniform 24-hour profile at the maximum per-day average
`kWh / 24`. -/
def dailyProfile (df : DataFrame) (tc : String) : List (ℕ × ℚ) :=
  (List.range 24).map (fun h => (h, listMaxD ((wideDailyValid df tc).map (fun k => qdiv k 24))))

/-- `process_wide_format` (lines 68–108): header promotion and rename,
then the intraday branch (melt, parse, `kWh → kW`), else the daily-total
uniform approximation (with its warning), else a structural error. -/
def process_wide_format (df0 : DataFrame) : NormResult :=
  match widePrep df0 with
  | .error msg => ⟨none, some msg, []⟩
  | .ok df =>
    if (wideTimeCols df).isEmpty then
      match daily_total_col df with
      | some tc => ⟨some (dailyProfile df tc), none, [wideDailyWarning]⟩
      | none => ⟨none, some "Unsupported format: no valid time columns or total kWh column found.", []⟩
    else
      if wideAllDatesStr df then ⟨some (hourlyMax (wideReadings df)), none, []⟩
      else ⟨none, some "Error in wide format: can only concatenate str to str", []⟩

/-! ### Shape classification and routing (src/app.py lines 151–156) -/

/-- Line 152: columns whose label contains `":"`. -/
def time_like_cols (cols : List String) : List String := cols.filter (fun c => strHasChar c ':')

/-- Line 153: is there a label containing `"date"` case-insensitively? -/
def has_date (cols : List String) : Bool := cols.any (fun c => containsStr (lowerStr c) "date")

/-- Line 154: `is_wide = has_date and len(time_like_cols) >= 20`. -/
def is_wide (cols : List String) : Bool := has_date cols && decide (20 ≤ (time_like_cols cols).length)

/-- Line 156: route the table to the wide or the tall normalizer. -/
def normalizeFile (df : DataFrame) : NormResult :=
  if is_wide df.cols then process_wide_format df else process_tall_format df

/-! ### The per-file analysis (src/app.py lines 162–223, 272–276)

The charger dictionaries built at lines 183–185 and 196–198 are modelled
as association lists over their numeric fields (the `"Type"` entry is a
display-only string label and carries no data used by any computation). -/

/-- Lines 183–185 / 196–198: the dictionary appended for a charger type
with `qty > 0`.  Note the key is `"Total_kW"` (lower-case `k`). -/
def mkChargerEntry (kw : ℚ) (qty : ℕ) : List (String × ℚ) :=
  [("Power_kW", kw), ("Quantity", (qty : ℚ)), ("Total_kW", qmul kw (qty : ℚ))]

/-- Python dictionary read `c[k]`: a missing key raises `KeyError`. -/
def dictLookup (d : List (String × ℚ)) (k : String) : Except String ℚ :=
  match d.find? (fun p => p.1 == k) with
  | some p => .ok p.2
  | none => .error ("KeyError: \x27" ++ k ++ "\x27")

/-- The `all_chargers` list (lines 174–198): one entry per charger type
whose quantity is positive. -/
def all_chargers (chargerSpecs : List (ℚ × ℕ)) : List (List (String × ℚ)) :=
  chargerSpecs.filterMap (fun s => if 0 < s.2 then some (mkChargerEntry s.1 s.2) else none)

/-- Line 204, `sum(c["Total_KW"] for c in all_chargers)`: left-to-right
sum, stopping at the first `KeyError`. -/
def sumTotalKW : List (List (String × ℚ)) → Except String ℚ
  | [] => .ok 0
  | c :: rest =>
    match dictLookup c "Total_KW" with
    | .error e => .error e
    | .ok v =>
      match sumTotalKW rest with
      | .error e => .error e
      | .ok s => .ok (qadd v s)

/-- Lines 200–206: the total custom charger load (`0` when no charger
entries were added). -/
def total_custom_kw (cs : List (List (String × ℚ))) : Except String ℚ :=
  if cs.isEmpty then .ok 0 else sumTotalKW cs

/-- One row of the analysis table (lines 162–163, 208–209): the columns
of the displayed/exported `result` dataframe. -/
structure AnalysisRow where
  hour : ℕ
  max_Power_kW : ℚ
  capacity_kW : ℚ
  excess_Power_kW : ℚ
  custom_Load_kW : ℚ
  total_Load_kW : ℚ
  deriving DecidableEq, Repr

/-- Lines 162–163 and 208–209: constant capacity column,
`Excess = Capacity − Max`, constant custom load, `Total = Max + Custom`. -/
def analyzeRows (profile : List (ℕ × ℚ)) (capacity_kw total_custom : ℚ) : List AnalysisRow :=
  profile.map (fun p =>
    { hour := p.1
      max_Power_kW := p.2
      capacity_kW := capacity_kw
      excess_Power_kW := qsub capacity_kw p.2
      custom_Load_kW := total_custom
      total_Load_kW := qadd p.2 total_custom })

/-- Lines 162–223 after a successful normalization: build the analysis
rows and the overload test of line 220,
`(result["Total_Load_kW"] > result["Capacity_kW"]).any()`.
`level2_kw` and `level3_kw` are the two global inputs of lines 115–116;
the source binds them and never uses them, and this embedding keeps them
as (unused) arguments to make that checkable. -/
def analyzeFile (profile : List (ℕ × ℚ)) (capacity_kw level2_kw level3_kw : ℚ)
    (chargerSpecs : List (ℚ × ℕ)) : Except String (List AnalysisRow × Bool) :=
  match total_custom_kw (all_chargers chargerSpecs) with
  | .error e => .error e
  | .ok t =>
    let rows := analyzeRows profile capacity_kw t
    .ok (rows, rows.any (fun r => decide (r.capacity_kW < r.total_Load_kW)))

instance exceptDecEq {ε α : Type} [DecidableEq ε] [DecidableEq α] :
    DecidableEq (Except ε α) := fun x y =>
  match x, y with
  | .ok a, .ok b =>
    if h : a = b then .isTrue (by rw [h])
    else .isFalse (fun hc => h (Except.ok.inj hc))
  | .error a, .error b =>
    if h : a = b then .isTrue (by rw [h])
    else .isFalse (fun hc => h (Except.error.inj hc))
  | .ok _, .error _ => .isFalse (fun hc => Except.noConfusion hc)
  | .error _, .ok _ => .isFalse (fun hc => Except.noConfusion hc)

/-- One CSV line of `result.to_csv(index=False)` (line 272); numeric
formatting approximated by `ratStr`. -/
def rowCsv (r : AnalysisRow) : String :=
  String.intercalate "," [toString r.hour, ratStr r.max_Power_kW, ratStr r.capacity_kW,
    ratStr r.excess_Power_kW, ratStr r.custom_Load_kW, ratStr r.total_Load_kW]

/-- `result.to_csv(index=False)` (line 272). -/
def toCsv (rows : List AnalysisRow) : String :=
  String.intercalate "\n"
    ("Hour,Max_Power_kW,Capacity_kW,Excess_Power_kW,Custom_Load_kW,Total_Load_kW"
      :: rows.map rowCsv) ++ "\n"

/-- What the analyzer tab produces for one uploaded file:
a result table (with the overload banner flag and the CSV export), or a
normalizer error shown via `st.error` and skipped (lines 158–160), or the
generic `except` handler of lines 275–276. -/
inductive FileOutcome where
  | table (rows : List AnalysisRow) (overload : Bool) (csv : String)
  | normError (msg : String)
  | failure (msg : String)
  deriving DecidableEq, Repr

/-- The per-file body of the upload loop (lines 135–276): classify and
normalize, stop with `st.error` + `continue` on a normalizer error, then
run the analysis; any exception there lands in the generic handler. -/
def processFile (capacity_kw level2_kw level3_kw : ℚ) (chargerSpecs : List (ℚ × ℕ))
    (df : DataFrame) : FileOutcome :=
  match normalizeFile df with
  | ⟨_, some msg, _⟩ => .normError msg
  | ⟨none, none, _⟩ => .failure "NoneType result"
  | ⟨some profile, none, _⟩ =>
    match analyzeFile profile capacity_kw level2_kw level3_kw chargerSpecs with
    | .error e => .failure e
    | .ok (rows, overload) => .table rows overload (toCsv rows)

/-- The upload loop (lines 118–276): each file is processed independently
with its own capacity and charger inputs; `level2_kw`/`level3_kw` are the
global inputs of lines 115–116. -/
def processBatch (level2_kw level3_kw : ℚ)
    (items : List (DataFrame × ℚ × List (ℚ × ℕ))) : List FileOutcome :=
  items.map (fun it => processFile it.2.1 level2_kw level3_kw it.2.2 it.1)

/-! ### Concrete example inputs (from the spec's testable properties) -/

/-- Hour-of-day label `"H:00"`. -/
def hhLabel (h : ℕ) : String := String.mk (natChars h ++ [':', '0', '0'])

/-- Quarter-hour label `"H:M"` for slot `i` of 96. -/
def qLabel (i : ℕ) : String := String.mk (natChars (i / 4) ++ ':' :: natChars (15 * (i % 4)))

/-- A wide file with 24 hourly columns, one day, every cell 4.0 kWh. -/
def exInterval24 : DataFrame :=
  ⟨"Date" :: (List.range 24).map hhLabel,
   [Cell.str "2024-06-01" :: (List.range 24).map (fun _ => Cell.num 4)]⟩

/-- `exInterval24` after `widePrep` (first column renamed to `"date"`). -/
def exInterval24d : DataFrame := ⟨"date" :: (List.range 24).map hhLabel, exInterval24.rows⟩

/-- A wide file with 96 quarter-hour columns, one day, every cell 1.0 kWh. -/
def exInterval96 : DataFrame :=
  ⟨"Date" :: (List.range 96).map qLabel,
   [Cell.str "2024-06-01" :: (List.range 96).map (fun _ => Cell.num 1)]⟩

/-- A wide file with a single daily total of 48.0 kWh and no time columns. -/
def exDailyTotal : DataFrame := ⟨["Date", "Total kWh"], [[Cell.str "2024-06-01", Cell.num 48]]⟩

/-- `exDailyTotal` after `widePrep`. -/
def exDailyTotald : DataFrame := ⟨["date", "Total kWh"], exDailyTotal.rows⟩

/-- A well-formed tall file: one reading of 30 kW at hour 5. -/
def exTallFile : DataFrame := ⟨["timestamp", "kw"], [[Cell.str "2024-06-01 05:00", Cell.num 30]]⟩

/-- Labels with no column labelled `"date"` but one containing it
(`"Update"`), plus 20 time-of-day columns. -/
def colsUpdate : List String := "Update" :: (List.range 20).map hhLabel

/-! ### Helper lemmas about the charger-entry list -/

theorem all_chargers_nil (chargerSpecs : List (ℚ × ℕ))
    (h : ∀ s ∈ chargerSpecs, s.2 = 0) : all_chargers chargerSpecs = [] := by
  induction chargerSpecs with
  | nil => rfl
  | cons a as ih =>
    have ha : a.2 = 0 := h a (List.mem_cons_self a as)
    have hns : ¬ 0 < a.2 := by omega
    simp only [all_chargers, List.filterMap_cons, if_neg hns]
    exact ih (fun s hs => h s (List.mem_cons_of_mem a hs))

theorem all_chargers_pos (chargerSpecs : List (ℚ × ℕ))
    (h : ∃ s ∈ chargerSpecs, 0 < s.2) :
    ∃ (kw : ℚ) (qty : ℕ) (rest : List (List (String × ℚ))),
      all_chargers chargerSpecs = mkChargerEntry kw qty :: rest := by
  induction chargerSpecs with
  | nil => rcases h with ⟨s, hs, _⟩; exact absurd hs (List.not_mem_nil s)
  | cons a as ih =>
    by_cases hpos : 0 < a.2
    · exact ⟨a.1, a.2, all_chargers as, by
        simp only [all_chargers, List.filterMap_cons, if_pos hpos]⟩
    · rcases h with ⟨s, hs, hp⟩
      rcases List.mem_cons.mp hs with rfl | hmem
      · exact absurd hp hpos
      · rcases ih ⟨s, hmem, hp⟩ with ⟨kw, qty, rest, heq⟩
        exact ⟨kw, qty, rest, by
          simp only [all_chargers, List.filterMap_cons, if_neg hpos]
          exact heq⟩

theorem sumTotalKW_keyerror (kw : ℚ) (qty : ℕ) (rest : List (List (String × ℚ))) :
    sumTotalKW (mkChargerEntry kw qty :: rest) = .error "KeyError: \x27Total_KW\x27" := rfl

theorem analyzeFile_keyerror (profile : List (ℕ × ℚ))
    (capacity_kw level2_kw level3_kw : ℚ) (chargerSpecs : List (ℚ × ℕ))
    (h : ∃ s ∈ chargerSpecs, 0 < s.2) :
    analyzeFile profile capacity_kw level2_kw level3_kw chargerSpecs
      = .error "KeyError: \x27Total_KW\x27" := by
  rcases all_chargers_pos chargerSpecs h with ⟨kw, qty, rest, hac⟩
  unfold analyzeFile
  rw [hac, total_custom_kw]
  simp only [List.isEmpty_cons, if_false, Bool.false_eq_true, sumTotalKW_keyerror]

/-! ### Claim theorems -/

/-- C7: the hourly aggregation maps each hour of day 0–23 that has at
least one reading to the maximum `power_kw` among all readings whose hour
equals that slot, across all days; hours with no reading are absent from
the profile.  Hour 5 with values `[3.0, 7.5, 2.0]` yields `7.5`. -/
theorem hourly_aggregation_max :
    (∀ (readings : List (ℕ × ℚ)) (h : ℕ) (q : ℚ),
      (h, q) ∈ hourlyMax readings ↔
        h < 24 ∧ (h, q) ∈ readings ∧ ∀ p : ℚ, (h, p) ∈ readings → p ≤ q)
    ∧ hourlyMax [(5, 3), (5, qdiv 15 2), (5, 2)] = [(5, qdiv 15 2)] :=
  ⟨hourlyMax_mem_iff, by decide⟩

/-- Witness for C7: the characterisation applied at hour 5 of the
concrete three-reading input. -/
theorem hourly_aggregation_max_witness :
    5 < 24 ∧ ((5 : ℕ), qdiv 15 2) ∈ [((5 : ℕ), (3 : ℚ)), (5, qdiv 15 2), (5, 2)] := by
  have h := (hourly_aggregation_max.1 [(5, 3), (5, qdiv 15 2), (5, 2)] 5 (qdiv 15 2)).mp
    (by decide)
  exact ⟨h.1, h.2.1⟩

/-- C3: for every successfully analysed file and every hour in its
result, `Excess_Power_kW = Capacity_kW − Max_Power_kW`, and the overload
error is shown iff `Total_Load_kW > Capacity_kW` at one or more hours
(after the custom load is added). -/
theorem excess_and_overload_invariant (profile : List (ℕ × ℚ))
    (capacity_kw level2_kw level3_kw : ℚ) (chargerSpecs : List (ℚ × ℕ))
    (rows : List AnalysisRow) (overload : Bool)
    (h : analyzeFile profile capacity_kw level2_kw level3_kw chargerSpecs
        = .ok (rows, overload)) :
    (∀ r ∈ rows, r.excess_Power_kW = r.capacity_kW - r.max_Power_kW)
    ∧ (overload = true ↔ ∃ r ∈ rows, r.capacity_kW < r.total_Load_kW) := by
  unfold analyzeFile at h
  cases heq : total_custom_kw (all_chargers chargerSpecs) with
  | error e => rw [heq] at h; exact absurd h (by simp)
  | ok t =>
    rw [heq] at h
    simp only [Except.ok.injEq, Prod.mk.injEq] at h
    obtain ⟨hrows, hov⟩ := h
    subst hrows
    constructor
    · intro r hr
      rcases List.mem_map.mp hr with ⟨p, _, hrp⟩
      rw [← hrp]
      simp only []
      rw [qsub_eq]
    · rw [← hov, List.any_eq_true]
      simp only [decide_eq_true_eq]

/-- Witness for C3 at a concrete input: capacity 100, hour-0 peak 30. -/
theorem excess_and_overload_invariant_witness :
    (⟨0, 30, 100, 70, 0, 30⟩ : AnalysisRow).excess_Power_kW
      = (⟨0, 30, 100, 70, 0, 30⟩ : AnalysisRow).capacity_kW
        - (⟨0, 30, 100, 70, 0, 30⟩ : AnalysisRow).max_Power_kW :=
  (excess_and_overload_invariant [(0, 30)] 100 7 50 [] [⟨0, 30, 100, 70, 0, 30⟩] false
    (by decide)).1 _ (by decide)

/-- C9: whenever the custom charger test adds at least one entry with
positive quantity, summing `c["Total_KW"]` raises a `KeyError` (entries
are stored under `"Total_kW"`), so the per-file analysis aborts via the
generic failure handler and produces no result table. -/
theorem custom_charger_keyerror (df : DataFrame)
    (capacity_kw level2_kw level3_kw : ℚ) (chargerSpecs : List (ℚ × ℕ))
    (profile : List (ℕ × ℚ)) (w : List String)
    (hnorm : normalizeFile df = ⟨some profile, none, w⟩)
    (hpos : ∃ s ∈ chargerSpecs, 0 < s.2) :
    processFile capacity_kw level2_kw level3_kw chargerSpecs df
      = .failure "KeyError: \x27Total_KW\x27" := by
  have hana := analyzeFile_keyerror profile capacity_kw level2_kw level3_kw chargerSpecs hpos
  simp only [processFile, hnorm, hana]

/-- Witness for C9: a valid tall file plus a 10 kW × 2 charger entry. -/
theorem custom_charger_keyerror_witness :
    processFile 100 7 50 [(10, 2)] exTallFile = .failure "KeyError: \x27Total_KW\x27" :=
  custom_charger_keyerror exTallFile 100 7 50 [(10, 2)] [(5, 30)] []
    (by decide) ⟨(10, 2), by decide, by decide⟩

/-- C1 counterexample: at capacity 100 and an hour-0 peak of 105 (so
`excess_kw = −5 < 0`) with a single 10 kW charger entry of quantity 2,
the claimed optimizer would skip allocation and report all counts 0 with
`remaining_kw = −5`; the program instead aborts with a `KeyError` and
computes no per-rating counts, no `used_kw` and no `remaining_kw` at all
(no largest-first greedy fill exists anywhere in `src/app.py`). -/
theorem chargerMix_greedy_counterexample :
    analyzeFile [((0 : ℕ), (105 : ℚ))] 100 7 50 [((10 : ℚ), (2 : ℕ))]
      = Except.error "KeyError: \x27Total_KW\x27" := by decide

/-- C1 (amended): the code computes no greedy fill.  Its only
charger-mix computation is the custom charger test: entries with
positive quantity carry `Total_kW = Power_kW × Quantity`; with no such
entry the analysis succeeds with `Custom_Load_kW = 0` at every hour
(regardless of the sign of the excess), and with at least one entry the
`"Total_KW"` lookup raises a `KeyError` and the analysis aborts. -/
theorem chargerMix_actual_behavior :
    (∀ (profile : List (ℕ × ℚ)) (capacity_kw level2_kw level3_kw : ℚ)
        (chargerSpecs : List (ℚ × ℕ)),
      (∀ s ∈ chargerSpecs, s.2 = 0) →
      analyzeFile profile capacity_kw level2_kw level3_kw chargerSpecs
        = .ok (analyzeRows profile capacity_kw 0,
            (analyzeRows profile capacity_kw 0).any
              (fun r => decide (r.capacity_kW < r.total_Load_kW)))
      ∧ ∀ r ∈ analyzeRows profile capacity_kw 0,
          r.custom_Load_kW = 0 ∧ r.total_Load_kW = r.max_Power_kW)
    ∧ (∀ (profile : List (ℕ × ℚ)) (capacity_kw level2_kw level3_kw : ℚ)
        (chargerSpecs : List (ℚ × ℕ)),
      (∃ s ∈ chargerSpecs, 0 < s.2) →
      analyzeFile profile capacity_kw level2_kw level3_kw chargerSpecs
        = .error "KeyError: \x27Total_KW\x27") := by
  constructor
  · intro profile capacity_kw level2_kw level3_kw chargerSpecs hz
    have hac := all_chargers_nil chargerSpecs hz
    constructor
    · unfold analyzeFile
      rw [hac]
      rfl
    · intro r hr
      rcases List.mem_map.mp hr with ⟨p, _, hrp⟩
      rw [← hrp]
      exact ⟨rfl, by show qadd p.2 0 = p.2; rw [qadd_eq, add_zero]⟩
  · intro profile capacity_kw level2_kw level3_kw chargerSpecs hpos
    exact analyzeFile_keyerror profile capacity_kw level2_kw level3_kw chargerSpecs hpos

/-- Witness for C1 (amended): quantity-zero specs give a successful
analysis with zero custom load. -/
theorem chargerMix_actual_behavior_witness :
    analyzeFile [((0 : ℕ), (105 : ℚ))] 100 7 50 [((10 : ℚ), (0 : ℕ))]
      = .ok (analyzeRows [(0, 105)] 100 0,
          (analyzeRows [(0, 105)] 100 0).any
            (fun r => decide (r.capacity_kW < r.total_Load_kW))) :=
  (chargerMix_actual_behavior.1 [(0, 105)] 100 7 50 [(10, 0)] (by decide)).1

/-- C2 counterexample: with hour-0 peak 30 and capacity 100
(`excess = 70`), the claimed `level2_count = floor(max(0, excess) / level2_kw)`
takes value 70 at `level2_kw = 1` and value 1 at `level2_kw = 70`, yet the
program's entire analysis output is identical for the two configurations:
no `level2_count`/`level3_count` is computed anywhere (`level2_kw` and
`level3_kw` are read at lines 115–116 and never used). -/
theorem autoCounts_counterexample :
    analyzeFile [((0 : ℕ), (30 : ℚ))] 100 1 50 [] = analyzeFile [(0, 30)] 100 70 50 []
    ∧ Rat.floor (qdiv (qmax 0 (qsub 100 30)) 1) ≠ Rat.floor (qdiv (qmax 0 (qsub 100 30)) 70) :=
  ⟨by decide, by decide⟩

/-- C2 (amended): the CapacityEvaluator computes no allocation-strategy
counts at all; the per-hour records it produces are independent of the
`level2_kw` and `level3_kw` configuration values. -/
theorem autoCounts_independence_amended :
    ∀ (profile : List (ℕ × ℚ))
      (capacity_kw level2_kw level3_kw level2_kw' level3_kw' : ℚ)
      (chargerSpecs : List (ℚ × ℕ)),
      analyzeFile profile capacity_kw level2_kw level3_kw chargerSpecs
        = analyzeFile profile capacity_kw level2_kw' level3_kw' chargerSpecs :=
  fun _ _ _ _ _ _ _ => rfl

/-- C10: two runs on the same table with the same capacity that differ
only in `level2_kw`/`level3_kw` produce identical analysis records and an
identical CSV export (the outcome of `processFile` carries both), and the
whole multi-file batch is likewise unchanged. -/
theorem level_kw_noninterference :
    (∀ (capacity_kw level2_kw level3_kw level2_kw' level3_kw' : ℚ)
        (chargerSpecs : List (ℚ × ℕ)) (df : DataFrame),
      processFile capacity_kw level2_kw level3_kw chargerSpecs df
        = processFile capacity_kw level2_kw' level3_kw' chargerSpecs df)
    ∧ (∀ (level2_kw level3_kw level2_kw' level3_kw' : ℚ)
        (items : List (DataFrame × ℚ × List (ℚ × ℕ))),
      processBatch level2_kw level3_kw items = processBatch level2_kw' level3_kw' items) :=
  ⟨fun _ _ _ _ _ _ _ => rfl, fun _ _ _ _ _ => rfl⟩

/-- C6 counterexample: the label list `["Update", "0:00", …, "19:00"]`
has no column labelled `"date"` (case-insensitively), yet `is_wide` is
true, because the code tests `"date" in str(col).lower()` — a substring
check that `"update"` satisfies. -/
theorem classifier_labeled_date_counterexample :
    is_wide colsUpdate = true
    ∧ colsUpdate.all (fun c => lowerStr c != "date") = true :=
  ⟨by decide, by decide⟩

/-- C6 (amended): the classifier routes a table to the wide normalizer
iff some column label contains the substring `"date"` case-insensitively
and at least 20 labels contain `":"`; every other table goes to the tall
normalizer, and classification is a total function of the labels (it
never raises — it only selects the downstream normalizer). -/
theorem classifier_substring_date_amended :
    (∀ cols : List String,
      is_wide cols = true ↔
        (cols.any (fun c => containsStr (lowerStr c) "date") = true
          ∧ 20 ≤ (cols.filter (fun c => strHasChar c ':')).length))
    ∧ (∀ df : DataFrame,
      normalizeFile df
        = if is_wide df.cols then process_wide_format df else process_tall_format df) := by
  constructor
  · intro cols
    rw [is_wide, has_date, time_like_cols]
    simp only [Bool.and_eq_true, decide_eq_true_eq]
  · intro df
    rfl

/-- Witness for C6 (amended): the characterisation applied to the
`colsUpdate` label list. -/
theorem classifier_substring_date_amended_witness :
    is_wide colsUpdate = true :=
  (classifier_substring_date_amended.1 colsUpdate).mpr ⟨by decide, by decide⟩

/-- C8: a table missing a required structural element (no `timestamp`
column and no `date`+`time` pair, or no power column, for tall; no
time-of-day column and no total/kWh column for wide) yields a null
profile together with a labelled error message instead of an exception,
and the outcome of every other file in the batch is unaffected (the
failing file is skipped, the batch is not aborted). -/
theorem structural_errors_recoverable :
    (∀ df df1 : DataFrame, tallPromote df = .ok df1 →
      tallTs (tallLowerCols df1) = .missingCols →
      process_tall_format df
        = ⟨none, some "Missing \x27timestamp\x27 or \x27date\x27 + \x27time\x27 columns.", []⟩)
    ∧ (∀ (df df1 : DataFrame) (tss : List (Option ℕ)), tallPromote df = .ok df1 →
      tallTs (tallLowerCols df1) = .parsed tss →
      tallPowerCol (tallLowerCols df1) = none →
      process_tall_format df = ⟨none, some "No \x27kW\x27 column found.", []⟩)
    ∧ (∀ df df1 : DataFrame, widePrep df = .ok df1 →
      (wideTimeCols df1).isEmpty = true →
      daily_total_col df1 = none →
      process_wide_format df
        = ⟨none, some "Unsupported format: no valid time columns or total kWh column found.", []⟩)
    ∧ (∀ (level2_kw level3_kw : ℚ) (pre post : List (DataFrame × ℚ × List (ℚ × ℕ)))
        (x : DataFrame × ℚ × List (ℚ × ℕ)),
      processBatch level2_kw level3_kw (pre ++ x :: post)
        = processBatch level2_kw level3_kw pre
          ++ processFile x.2.1 level2_kw level3_kw x.2.2 x.1
            :: processBatch level2_kw level3_kw post) := by
  refine ⟨?_, ?_, ?_, ?_⟩
  · intro df df1 h1 h2
    simp only [process_tall_format, h1, h2]
  · intro df df1 tss h1 h2 h3
    simp only [process_tall_format, h1, h2, h3]
  · intro df df1 h1 h2 h3
    simp only [process_wide_format, h1, h2, h3, if_true]
  · intro level2_kw level3_kw pre post x
    simp only [processBatch, List.map_append, List.map_cons]

/-- Witness for C8: a one-column tall table with no timestamp data. -/
theorem structural_errors_recoverable_witness :
    process_tall_format (⟨["foo"], [[Cell.num 1]]⟩ : DataFrame)
      = ⟨none, some "Missing \x27timestamp\x27 or \x27date\x27 + \x27time\x27 columns.", []⟩ :=
  structural_errors_recoverable.1 ⟨["foo"], [[Cell.num 1]]⟩ ⟨["foo"], [[Cell.num 1]]⟩
    (by decide) (by decide)

set_option maxRecDepth 400000 in
/-- C4: with at least one time-of-day column, the sampling interval is
0.25 h iff the time-column count is at least 96 (else 1 h), every emitted
reading's power is `kWh / interval_hours`, and the two spec examples hold:
24 columns of 4.0 kWh give 4.0 kW in every slot, and 96 columns of
1.0 kWh also give 4.0 kW in every slot. -/
theorem wide_interval_inference :
    (∀ df df1 : DataFrame, widePrep df = .ok df1 →
      (wideTimeCols df1).isEmpty = false →
      wideAllDatesStr df1 = true →
      (interval_guess df1 = if 96 ≤ (wideTimeCols df1).length then (1 : ℚ)/4 else 1)
      ∧ process_wide_format df = ⟨some (hourlyMax (wideReadings df1)), none, []⟩
      ∧ ∀ r ∈ wideReadings df1, ∃ e ∈ wideMelted df1, ∃ kwh : ℚ,
          toNumeric e.2.2 = some kwh ∧ r.2 = kwh / interval_guess df1)
    ∧ process_wide_format exInterval24
        = ⟨some ((List.range 24).map (fun h => (h, 4))), none, []⟩
    ∧ process_wide_format exInterval96
        = ⟨some ((List.range 24).map (fun h => (h, 4))), none, []⟩ := by
  refine ⟨?_, by decide, by decide⟩
  intro df df1 h1 h2 h3
  refine ⟨?_, ?_, ?_⟩
  · rw [interval_guess, qdiv_eq]
  · simp only [process_wide_format, h1, h2, h3, if_true, Bool.false_eq_true, if_false]
  · intro r hr
    unfold wideReadings at hr
    rcases List.mem_filterMap.mp hr with ⟨e, he, hf⟩
    refine ⟨e, he, ?_⟩
    rcases e with ⟨d, t, vc⟩
    cases d with
    | num q => exact absurd hf (by simp [cellAsStr])
    | blank => exact absurd hf (by simp [cellAsStr])
    | str ds =>
      change (match parseDateTimeChars (ds.toList ++ ' ' :: t.toList), toNumeric vc with
        | some h, some kwh => some (h, qdiv kwh (interval_guess df1))
        | _, _ => none) = some r at hf
      cases hp : parseDateTimeChars (ds.toList ++ ' ' :: t.toList) with
      | none =>
        rw [hp] at hf
        cases htn : toNumeric vc <;> rw [htn] at hf <;> exact absurd hf (by simp)
      | some hr24 =>
        rw [hp] at hf
        cases htn : toNumeric vc with
        | none => rw [htn] at hf; exact absurd hf (by simp)
        | some kwh =>
          rw [htn] at hf
          refine ⟨kwh, rfl, ?_⟩
          have hfr : (hr24, qdiv kwh (interval_guess df1)) = r := by simpa using hf
          rw [← hfr]
          exact qdiv_eq kwh (interval_guess df1)

/-- Witness for C4: the interval formula at the 24-column example. -/
theorem wide_interval_inference_witness :
    interval_guess exInterval24d
      = if 96 ≤ (wideTimeCols exInterval24d).length then (1 : ℚ)/4 else 1 :=
  (wide_interval_inference.1 exInterval24 exInterval24d (by decide) (by decide) (by decide)).1

/-- C5: with no time-of-day column but a daily-total column, each valid
day yields `power_kw_avg = kWh_total / 24`, the profile assigns the
maximum of these per-day averages to every hour slot 0–23, and a
warning-level notice (not an error) is surfaced; a single day with
`kWh_total = 48.0` gives all 24 hours equal to 2.0. -/
theorem wide_daily_total_fallback :
    (∀ (df df1 : DataFrame) (tc : String) (v : ℚ) (vs : List ℚ),
      widePrep df = .ok df1 →
      (wideTimeCols df1).isEmpty = true →
      daily_total_col df1 = some tc →
      wideDailyValid df1 tc = v :: vs →
      process_wide_format df = ⟨some (dailyProfile df1 tc), none, [wideDailyWarning]⟩
      ∧ dailyProfile df1 tc
          = (List.range 24).map
              (fun h => (h, listMax1 (v / 24) (vs.map (fun k => k / 24))))
      ∧ (∀ a ∈ (v :: vs).map (fun k => k / 24),
          a ≤ listMax1 (v / 24) (vs.map (fun k => k / 24)))
      ∧ listMax1 (v / 24) (vs.map (fun k => k / 24)) ∈ (v :: vs).map (fun k => k / 24))
    ∧ process_wide_format exDailyTotal
        = ⟨some ((List.range 24).map (fun h => (h, 2))), none, [wideDailyWarning]⟩ := by
  refine ⟨?_, by decide⟩
  intro df df1 tc v vs h1 h2 h3 hvalid
  refine ⟨?_, ?_, ?_, ?_⟩
  · simp only [process_wide_format, h1, h2, h3, if_true]
  · unfold dailyProfile
    rw [hvalid]
    simp only [List.map_cons, listMaxD, qdiv_eq]
  · intro a ha
    rw [List.map_cons] at ha
    rcases List.mem_cons.mp ha with rfl | hm
    · exact le_listMax1 _ _
    · exact listMax1_ge_of_mem _ _ _ hm
  · rw [List.map_cons]
    exact listMax1_mem_cons _ _

/-- Witness for C5: the fallback applied to the 48 kWh single-day file. -/
theorem wide_daily_total_fallback_witness :
    process_wide_format exDailyTotal
      = ⟨some (dailyProfile exDailyTotald "Total kWh"), none, [wideDailyWarning]⟩ :=
  (wide_daily_total_fallback.1 exDailyTotal exDailyTotald "Total kWh" 48 []
    (by decide) (by decide) (by decide) (by decide)).1
